import Mathlib

/-!
Shallow embedding of the event-chat subsystem of the EventFi backend
(`src/v1/services/chat.service.ts` and `src/v1/websocket/chat.socket.ts`),
together with the relational constraints declared in
`prisma/migrations/.../migration.sql`.

Time is modelled as milliseconds since the epoch (`Nat`); the JavaScript
`Date.now()` value is passed explicitly as `now`.  Role, status and message
type values are kept as the string literals the source uses.  Row ids of
chat rows, member rows and message rows are `Nat`, drawn from a fresh-id
counter in the database state.
-/

namespace EventFi

/-- Error outcomes of the chat service.  Each constructor corresponds to one
of the `CHAT_ERROR_CODES` thrown in `chat.service.ts`; `SLOW_MODE` carries
the rounded-up remaining wait in seconds that the source interpolates into
the error message; `targetNotFound` is the literal string
`'User not found in chat'`; `messageNotFound` is `'Message not found'`;
`invalidAction` is `'Invalid action'`; `fkViolation` models the database
rejecting an insert whose `replyToId` references no existing message
(foreign key `ChatMessage_replyToId_fkey`). -/
inductive ChatError where
  | chatNotFound
  | noTicket
  | chatDisabled
  | userMuted
  | slowMode (remainingSec : Int)
  | messageTooLong
  | notAuthorized
  | targetNotFound
  | messageNotFound
  | invalidAction
  | fkViolation
deriving Repr, DecidableEq

/-- Row of the `Event` table, restricted to the fields the chat subsystem
selects (`organizerId`, `endDate`). `endDate` is in milliseconds. -/
structure Event where
  id : String
  organizerId : String
  endDate : Nat
deriving Repr, DecidableEq

/-- Row of the `EventChat` table. -/
structure EventChat where
  id : Nat
  eventId : String
  isActive : Bool
  slowMode : Nat
  membersOnly : Bool
deriving Repr, DecidableEq

/-- Row of the `EventTeamMember` table, restricted to the queried fields. -/
structure EventTeamMember where
  eventId : String
  userId : String
  role : String
  status : String
deriving Repr, DecidableEq

/-- An attendee row joined with its order, as queried by
`prisma.attendee.findFirst({ where: { order: { eventId, userId, status } } })`. -/
structure Attendee where
  orderEventId : String
  orderUserId : String
  orderStatus : String
deriving Repr, DecidableEq

/-- Row of the `ChatMember` table. -/
structure ChatMember where
  id : Nat
  chatId : Nat
  userId : String
  role : String
  isMuted : Bool
  mutedUntil : Option Nat
  joinedAt : Nat
  lastSeenAt : Nat
deriving Repr, DecidableEq

/-- Row of the `ChatMessage` table. -/
structure ChatMessage where
  id : Nat
  chatId : Nat
  senderId : String
  content : String
  type : String
  replyToId : Option Nat
  isPinned : Bool
  isDeleted : Bool
  deletedBy : Option String
  createdAt : Nat
deriving Repr, DecidableEq

/-- The relational store visible to the chat service, plus a fresh-id
counter used for created rows. -/
structure DB where
  events : List Event
  chats : List EventChat
  teamMembers : List EventTeamMember
  attendees : List Attendee
  chatMembers : List ChatMember
  chatMessages : List ChatMessage
  nextId : Nat
deriving Repr, DecidableEq

/-- Embeds `prisma.event` lookup by id. -/
def findEvent (db : DB) (eventId : String) : Option Event :=
  db.events.find? (fun e => e.id == eventId)

/-- Embeds `prisma.eventChat.findUnique({ where: { eventId } })`. -/
def findChatByEvent (db : DB) (eventId : String) : Option EventChat :=
  db.chats.find? (fun c => c.eventId == eventId)

/-- Embeds `prisma.eventTeamMember.findFirst({ where: { eventId, userId, status: 'ACTIVE' } })`. -/
def findActiveTeamMember (db : DB) (eventId userId : String) : Option EventTeamMember :=
  db.teamMembers.find? (fun t => t.eventId == eventId && t.userId == userId && t.status == "ACTIVE")

/-- Embeds `prisma.attendee.findFirst({ where: { order: { eventId, userId, status: 'CONFIRMED' } } })`
collapsed to existence. -/
def confirmedAttendeeExists (db : DB) (eventId userId : String) : Bool :=
  db.attendees.any (fun a =>
    a.orderEventId == eventId && a.orderUserId == userId && a.orderStatus == "CONFIRMED")

/-- Embeds `prisma.chatMember.findUnique({ where: { chatId_userId: { chatId, userId } } })`. -/
def findMember (db : DB) (chatId : Nat) (userId : String) : Option ChatMember :=
  db.chatMembers.find? (fun m => m.chatId == chatId && m.userId == userId)

/-- Embeds `prisma.chatMessage.findUnique({ where: { id } })`. -/
def findMessage (db : DB) (messageId : Nat) : Option ChatMessage :=
  db.chatMessages.find? (fun m => m.id == messageId)

/-- Replace the member row with the given id by its image under `f`. -/
def updateMemberRow (db : DB) (memberId : Nat) (f : ChatMember → ChatMember) : DB :=
  { db with chatMembers := db.chatMembers.map (fun m => if m.id == memberId then f m else m) }

/-- Replace the message row with the given id by its image under `f`. -/
def updateMessageRow (db : DB) (messageId : Nat) (f : ChatMessage → ChatMessage) : DB :=
  { db with chatMessages := db.chatMessages.map (fun m => if m.id == messageId then f m else m) }

/-- The `ChatMember` rows for a (chat, user) pair; the database unique index
`ChatMember_chatId_userId_key` promises at most one. -/
def memberRows (db : DB) (chatId : Nat) (userId : String) : List ChatMember :=
  db.chatMembers.filter (fun m => m.chatId == chatId && m.userId == userId)

/-- Unique-index invariant the relational store enforces on memberships: the
member table holds distinct rows, at most one per (chat, user) pair
(`ChatMember_chatId_userId_key`). -/
def DBWellFormed (db : DB) : Prop :=
  db.chatMembers.Nodup ∧
  (∀ m₁ ∈ db.chatMembers, ∀ m₂ ∈ db.chatMembers,
    m₁.chatId = m₂.chatId → m₁.userId = m₂.userId → m₁ = m₂)

/-- The fixed role→permission matrix `ROLE_PERMISSIONS` of `chat.service.ts`. -/
structure ChatRolePermissions where
  canSendMessage : Bool
  canDeleteOwn : Bool
  canDeleteAny : Bool
  canPin : Bool
  canMute : Bool
  canAnnounce : Bool
  canChangeSettings : Bool
deriving Repr, DecidableEq

def memberPermissions : ChatRolePermissions :=
  ⟨true, true, false, false, false, false, false⟩

def moderatorPermissions : ChatRolePermissions :=
  ⟨true, true, true, true, true, false, false⟩

def organizerPermissions : ChatRolePermissions :=
  ⟨true, true, true, true, true, true, true⟩

/-- Embeds `ROLE_PERMISSIONS[role]` — the record lookup, `none` for unknown keys. -/
def rolePermissionsTable (role : String) : Option ChatRolePermissions :=
  if role == "MEMBER" then some memberPermissions
  else if role == "MODERATOR" then some moderatorPermissions
  else if role == "ORGANIZER" then some organizerPermissions
  else none

/-- Embeds `ROLE_PERMISSIONS[member.role] || ROLE_PERMISSIONS.MEMBER`. -/
def permissionsFor (role : String) : ChatRolePermissions :=
  (rolePermissionsTable role).getD memberPermissions

def MAX_MESSAGE_LENGTH : Nat := 1000

/-- Character-wise ASCII lowercasing: the total, computable equivalent of
the JavaScript `toLowerCase()` applied to the role constants. -/
def toLowerStr (s : String) : String := String.mk (s.data.map Char.toLower)

/-- 24 hours in milliseconds: the grace window added to `event.endDate`. -/
def GRACE_MS : Nat := 24 * 60 * 60 * 1000

/-- Five minutes in milliseconds: the presence freshness window. -/
def FIVE_MIN_MS : Nat := 5 * 60 * 1000

/-- The chat info object assembled by `getOrJoinChat` / `formatChatInfo`.
User display fields resolved from external profile lookups are out of the
embedding's scope. -/
structure ChatInfo where
  id : Nat
  eventId : String
  isActive : Bool
  slowMode : Nat
  membersOnly : Bool
  memberCount : Nat
  onlineCount : Nat
  userRole : String
  isMuted : Bool
deriving Repr, DecidableEq

/-- Result shape of `getOrJoinChat`. -/
structure JoinResult where
  chat : Option ChatInfo
  canJoin : Bool
  reason : Option String
deriving Repr, DecidableEq

/-- Embeds `formatChatInfo(chat, userRole, isMuted)` (member count taken from the
`_count` include on the chat row; `onlineCount` fixed at 0). -/
def formatChatInfo (chat : EventChat) (memberCount : Nat) (userRole : String)
    (isMuted : Bool) : ChatInfo :=
  { id := chat.id
    eventId := chat.eventId
    isActive := chat.isActive
    slowMode := chat.slowMode
    membersOnly := chat.membersOnly
    memberCount := memberCount
    onlineCount := 0
    userRole := toLowerStr userRole
    isMuted := isMuted }

/-- Role derivation in `getOrJoinChat`: organizer of the event, else an
active team member mapped `CO_HOST`/`MANAGER` → `MODERATOR` and other team
roles → `MEMBER`, else plain `MEMBER`. -/
def resolveUserRole (db : DB) (ev : Event) (eventId userId : String) : String :=
  if ev.organizerId == userId then "ORGANIZER"
  else
    match findActiveTeamMember db eventId userId with
    | some tm => if tm.role == "CO_HOST" || tm.role == "MANAGER" then "MODERATOR" else "MEMBER"
    | none => "MEMBER"

/-- Embeds `prisma.chatMember.count({ where: { chatId, lastSeenAt: { gte: fiveMinutesAgo } } })`.
JavaScript computes `fiveMinutesAgo = Date.now() - 5*60*1000`; the `Nat`
subtraction truncates at 0, which matches a clock that starts at the epoch. -/
def onlineCount (db : DB) (chatId : Nat) (now : Nat) : Nat :=
  (db.chatMembers.filter (fun m => m.chatId == chatId && decide (now - FIVE_MIN_MS ≤ m.lastSeenAt))).length

/-- The get-or-create block of `getOrJoinChat`: return the event's chat row
or atomically create one with the migration's defaults
(`isActive=true`, `slowMode=0`, `membersOnly=true`). -/
def getOrCreateChat (db : DB) (eventId : String) : EventChat × DB :=
  match findChatByEvent db eventId with
  | some c => (c, db)
  | none =>
    let c : EventChat :=
      { id := db.nextId, eventId := eventId, isActive := true, slowMode := 0, membersOnly := true }
    (c, { db with chats := c :: db.chats, nextId := db.nextId + 1 })

/-- The auto-join block of `getOrJoinChat`: create the membership on first
join, else bump the existing row's `lastSeenAt`.  Returns the member row as
read (creation defaults `isMuted=false`) with the written store. -/
def upsertMember (db1 : DB) (now : Nat) (chatId : Nat) (userId userRole : String) :
    ChatMember × DB :=
  match findMember db1 chatId userId with
  | some m => (m, updateMemberRow db1 m.id (fun x => { x with lastSeenAt := now }))
  | none =>
    let m : ChatMember :=
      { id := db1.nextId, chatId := chatId, userId := userId, role := userRole
        isMuted := false, mutedUntil := none, joinedAt := now, lastSeenAt := now }
    (m, { db1 with chatMembers := m :: db1.chatMembers, nextId := db1.nextId + 1 })

/-- The success tail of `getOrJoinChat`: auto-join (membership upsert), then
the assembled chat info with the online count taken after the write. -/
def joinSuccess (db1 : DB) (now : Nat) (chat : EventChat) (userId userRole : String)
    (memberCount : Nat) : JoinResult × DB :=
  let (member, db2) := upsertMember db1 now chat.id userId userRole
  ({ chat := some
       { id := chat.id
         eventId := chat.eventId
         isActive := chat.isActive
         slowMode := chat.slowMode
         membersOnly := chat.membersOnly
         memberCount := memberCount
         onlineCount := onlineCount db2 chat.id now
         userRole := toLowerStr userRole
         isMuted := member.isMuted }
     canJoin := true
     reason := none }, db2)

/-- Embeds `ChatService.getOrJoinChat(eventId, userId)`.  Returns `none` when the
event row is missing (the include/foreign key would fail); otherwise the
join result together with the database after the call's writes. -/
def getOrJoinChat (db : DB) (now : Nat) (eventId userId : String) :
    Option (JoinResult × DB) :=
  match findEvent db eventId with
  | none => none
  | some ev =>
    let (chat, db1) := getOrCreateChat db eventId
    -- member count from the `_count` include, taken before any member write
    let memberCount := (db1.chatMembers.filter (fun m => m.chatId == chat.id)).length
    let userRole := resolveUserRole db1 ev eventId userId
    -- activity window: event end + 24h grace, strict comparison
    let isExpired := decide (ev.endDate + GRACE_MS < now)
    if !chat.isActive || isExpired then
      some ({ chat := none, canJoin := false, reason := some "CHAT_DISABLED" }, db1)
    else if chat.membersOnly && userRole == "MEMBER"
        && !confirmedAttendeeExists db1 eventId userId then
      some ({ chat := some (formatChatInfo chat memberCount userRole false)
              canJoin := false, reason := some "NO_TICKET" }, db1)
    else
      some (joinSuccess db1 now chat userId userRole memberCount)

/-- Embeds `prisma.chatMessage.findFirst({ where: { chatId, senderId }, orderBy: { createdAt: 'desc' } })`:
the sender's most recent message in the chat, with no filter on the
soft-deleted flag.  Ties on `createdAt` keep the earlier row. -/
def mostRecentMessageBySender (db : DB) (chatId : Nat) (senderId : String) :
    Option ChatMessage :=
  (db.chatMessages.filter (fun m => m.chatId == chatId && m.senderId == senderId)).foldl
    (fun acc m =>
      match acc with
      | none => some m
      | some b => if b.createdAt < m.createdAt then some m else some b)
    none

/-- Embeds `Math.ceil(chat.slowMode - timeSince)` where `timeSince` is the elapsed
time in seconds: the remaining wait rounded up to whole seconds, computed
here from millisecond quantities. -/
def slowModeRemaining (slowModeSec : Nat) (timeSinceMs : Int) : Int :=
  ((slowModeSec : Int) * 1000 - timeSinceMs + 999) / 1000

/-- The message object returned by `sendMessage` (user display fields that
come from the external profile lookup are out of scope; the reply preview
carries the replied-to id and its content truncated to 100 characters). -/
structure SentMessage where
  id : Nat
  content : String
  type : String
  senderId : String
  senderRole : String
  replyTo : Option (Nat × String)
  isPinned : Bool
  createdAt : Nat
deriving Repr, DecidableEq

/-- The mute check of `sendMessage`: throw `USER_MUTED` while the mute is
open-ended or unexpired; clear an expired mute and continue on the updated
store. -/
def sendMessageMuteStep (db : DB) (now : Nat) (member : ChatMember) :
    Except ChatError DB :=
  if member.isMuted = true then
    match member.mutedUntil with
    | none => .error .userMuted
    | some t =>
      if now < t then .error .userMuted
      else .ok (updateMemberRow db member.id
        (fun x => { x with isMuted := false, mutedUntil := none }))
  else .ok db

/-- The slow-mode gate of `sendMessage`, applied only to stored role
`MEMBER`. -/
def sendMessageSlowStep (db1 : DB) (now : Nat) (userId : String)
    (chat : EventChat) (member : ChatMember) : Except ChatError Unit :=
  if 0 < chat.slowMode ∧ member.role = "MEMBER" then
    match mostRecentMessageBySender db1 chat.id userId with
    | some lastMessage =>
      if (now : Int) - (lastMessage.createdAt : Int) < (chat.slowMode : Int) * 1000 then
        .error (.slowMode (slowModeRemaining chat.slowMode
          ((now : Int) - (lastMessage.createdAt : Int))))
      else .ok ()
    | none => .ok ()
  else .ok ()

/-- The message-row insert of `sendMessage` together with the sender's
last-seen bump, after the store has accepted the `replyToId` reference. -/
def sendMessageInsert (db1 : DB) (now : Nat) (userId content type : String)
    (replyToId : Option Nat) (replyPreview : Option (Nat × String))
    (chat : EventChat) (member : ChatMember) : Except ChatError SentMessage × DB :=
  let msg : ChatMessage :=
    { id := db1.nextId, chatId := chat.id, senderId := userId
      content := content, type := type, replyToId := replyToId
      isPinned := false, isDeleted := false, deletedBy := none
      createdAt := now }
  let db2 := { db1 with chatMessages := msg :: db1.chatMessages
                        nextId := db1.nextId + 1 }
  let db3 := updateMemberRow db2 member.id (fun x => { x with lastSeenAt := now })
  (.ok { id := msg.id, content := content, type := type
         senderId := userId, senderRole := toLowerStr member.role
         replyTo := replyPreview, isPinned := false, createdAt := now }, db3)

/-- The part of `sendMessage` that runs after the mute check, on the store
`db1` it produced: announcement permission, slow mode, reply-reference
integrity, insert. -/
def sendMessageRest (db1 : DB) (now : Nat) (userId content type : String)
    (replyToId : Option Nat) (chat : EventChat) (member : ChatMember) :
    Except ChatError SentMessage × DB :=
  if type = "ANNOUNCEMENT" ∧ (permissionsFor member.role).canAnnounce = false then
    (.error .notAuthorized, db1)
  else
    match sendMessageSlowStep db1 now userId chat member with
    | .error e => (.error e, db1)
    | .ok _ =>
      -- referential integrity of replyToId, enforced by the store
      match replyToId with
      | some rid =>
        match findMessage db1 rid with
        | none => (.error .fkViolation, db1)
        | some replyMsg =>
          sendMessageInsert db1 now userId content type (some rid)
            (some (replyMsg.id, replyMsg.content.take 100)) chat member
      | none =>
        sendMessageInsert db1 now userId content type none none chat member

/-- Embeds `ChatService.sendMessage(eventId, userId, content, type, replyToId)`.
The returned database reflects every write the call committed before its
outcome, including the lazy unmute that precedes a later rejection.  An
insert whose `replyToId` matches no message row fails with `fkViolation`
(foreign key `ChatMessage_replyToId_fkey` of the migration). -/
def sendMessage (db : DB) (now : Nat) (eventId userId content type : String)
    (replyToId : Option Nat) : Except ChatError SentMessage × DB :=
  if MAX_MESSAGE_LENGTH < content.length then (.error .messageTooLong, db)
  else
    match findChatByEvent db eventId with
    | none => (.error .chatNotFound, db)
    | some chat =>
      if chat.isActive = false then (.error .chatDisabled, db)
      else
        match findMember db chat.id userId with
        | none => (.error .notAuthorized, db)
        | some member =>
          -- mute check: throw while the mute is open-ended or unexpired,
          -- otherwise clear it lazily and proceed
          match sendMessageMuteStep db now member with
          | .error e => (.error e, db)
          | .ok db1 => sendMessageRest db1 now userId content type replyToId chat member

/-- Result shape of `moderateMessage`: the delete branch reports the deleter,
the pin branches the new pinned flag. -/
structure ModerationResult where
  messageId : Nat
  action : String
  isPinned : Option Bool
  deletedBy : Option String
deriving Repr, DecidableEq

/-- Embeds `ChatService.moderateMessage(eventId, messageId, userId, action)`. -/
def moderateMessage (db : DB) (eventId : String) (messageId : Nat) (userId : String)
    (action : String) : Except ChatError ModerationResult × DB :=
  match findChatByEvent db eventId with
  | none => (.error .chatNotFound, db)
  | some chat =>
    match findMember db chat.id userId with
    | none => (.error .notAuthorized, db)
    | some member =>
      match findMessage db messageId with
      | none => (.error .messageNotFound, db)
      | some message =>
        if message.chatId != chat.id then (.error .messageNotFound, db)
        else
          let permissions := permissionsFor member.role
          if action == "delete" then
            let canDelete :=
              if message.senderId == userId then permissions.canDeleteOwn
              else permissions.canDeleteAny
            if !canDelete then (.error .notAuthorized, db)
            else
              (.ok { messageId := messageId, action := "deleted"
                     isPinned := none, deletedBy := some userId },
               updateMessageRow db messageId
                 (fun m => { m with isDeleted := true, deletedBy := some userId }))
          else if action == "pin" || action == "unpin" then
            if !permissions.canPin then (.error .notAuthorized, db)
            else
              (.ok { messageId := messageId, action := action
                     isPinned := some (action == "pin"), deletedBy := none },
               updateMessageRow db messageId
                 (fun m => { m with isPinned := action == "pin" }))
          else (.error .invalidAction, db)

/-- Result shape of `muteUser`. -/
structure MuteResult where
  userId : String
  isMuted : Bool
  untilTime : Option Nat
deriving Repr, DecidableEq

/-- The `roleOrder` record of `muteUser` (`MEMBER: 0, MODERATOR: 1, ORGANIZER: 2`);
a key outside the record yields `none` (JavaScript `undefined`). -/
def roleOrder (role : String) : Option Nat :=
  if role == "MEMBER" then some 0
  else if role == "MODERATOR" then some 1
  else if role == "ORGANIZER" then some 2
  else none

/-- Embeds `roleOrder[target.role] >= roleOrder[actor.role]` with JavaScript
comparison semantics: any comparison involving `undefined` is false. -/
def targetRankAtLeastActor (targetRole actorRole : String) : Bool :=
  match roleOrder targetRole, roleOrder actorRole with
  | some t, some a => a ≤ t
  | _, _ => false

/-- Embeds `ChatService.muteUser(eventId, targetUserId, actorUserId, durationMinutes)`. -/
def muteUser (db : DB) (now : Nat) (eventId targetUserId actorUserId : String)
    (durationMinutes : Nat) : Except ChatError MuteResult × DB :=
  match findChatByEvent db eventId with
  | none => (.error .chatNotFound, db)
  | some chat =>
    match findMember db chat.id actorUserId with
    | none => (.error .notAuthorized, db)
    | some actor =>
      let permissions := permissionsFor actor.role
      if !permissions.canMute then (.error .notAuthorized, db)
      else
        match findMember db chat.id targetUserId with
        | none => (.error .targetNotFound, db)
        | some target =>
          if targetRankAtLeastActor target.role actor.role then
            (.error .notAuthorized, db)
          else if durationMinutes == 0 then
            (.ok { userId := targetUserId, isMuted := false, untilTime := none },
             updateMemberRow db target.id
               (fun m => { m with isMuted := false, mutedUntil := none }))
          else
            let mutedUntil := now + durationMinutes * 60 * 1000
            (.ok { userId := targetUserId, isMuted := true, untilTime := some mutedUntil },
             updateMemberRow db target.id
               (fun m => { m with isMuted := true, mutedUntil := some mutedUntil }))

/-- Insert a message into a list sorted by `createdAt` descending. -/
def insertDescByCreated (m : ChatMessage) : List ChatMessage → List ChatMessage
  | [] => [m]
  | x :: xs => if x.createdAt < m.createdAt then m :: x :: xs else x :: insertDescByCreated m xs

/-- Sort messages by `createdAt` descending (`orderBy: { createdAt: 'desc' }`). -/
def sortDescByCreated : List ChatMessage → List ChatMessage
  | [] => []
  | x :: xs => insertDescByCreated x (sortDescByCreated xs)

/-- Embeds `ChatService.getMessages(eventId, userId, before, limit)`, returning the
raw message rows of the page in display (ascending) order plus the
`hasMore` flag.  Sender display formatting (external profile data) is out of
scope.  A `before` id that resolves to no message leaves the cursor filter
off, as Prisma treats the resulting `undefined` bound. -/
def getMessages (db : DB) (eventId userId : String) (before : Option Nat)
    (limit : Nat) : Except ChatError (List ChatMessage × Bool) :=
  match findChatByEvent db eventId with
  | none => .error .chatNotFound
  | some chat =>
    match findMember db chat.id userId with
    | none => .error .notAuthorized
    | some _ =>
      let cutoff : Option Nat :=
        match before with
        | some bid => (findMessage db bid).map (fun m => m.createdAt)
        | none => none
      let base := db.chatMessages.filter (fun m =>
        m.chatId == chat.id && !m.isDeleted &&
        (match cutoff with
         | some t => decide (m.createdAt < t)
         | none => true))
      let page := (sortDescByCreated base).take (min limit 100)
      let hasMore :=
        match page.getLast? with
        | some oldest =>
          db.chatMessages.any (fun m =>
            m.chatId == chat.id && !m.isDeleted && decide (m.createdAt < oldest.createdAt))
        | none => false
      .ok (page.reverse, hasMore)

/-! ### Realtime gateway (`src/v1/websocket/chat.socket.ts`)

Room-tracking state of the socket layer: the module-level maps
`userSockets` (user id → set of live socket ids) and `roomOnlineUsers`
(room → set of user ids), plus each connected socket's `eventId` field.
Rooms are keyed here directly by event id (the source prefixes the string
with `chat:`).  The `ChatService` calls the handlers make are modelled
separately above; the gateway claims concern only this room state and the
`chat:member:left` broadcast decision. -/

/-- Gateway room-tracking state. -/
structure GwState where
  userSockets : List (String × List String)
  socketEventId : List (String × String)
  roomOnlineUsers : List (String × List String)
deriving Repr, DecidableEq

/-- Lookup in an association list keyed by strings (`Map.get`). -/
def alistLookup {α : Type} (l : List (String × α)) (k : String) : Option α :=
  (l.find? (fun p => p.1 == k)).map Prod.snd

/-- Remove a key from an association list (`Map.delete`). -/
def alistErase {α : Type} (l : List (String × α)) (k : String) : List (String × α) :=
  l.filter (fun p => p.1 != k)

/-- Update the value stored at a key, inserting `d` first when absent. -/
def alistUpsert {α : Type} (l : List (String × α)) (k : String) (d : α) (f : α → α) :
    List (String × α) :=
  match alistLookup l k with
  | some _ => l.map (fun p => if p.1 == k then (p.1, f p.2) else p)
  | none => (k, f d) :: l

/-- Embeds `Set.add` on a list-represented set of strings. -/
def strSetAdd (s : List String) (x : String) : List String :=
  if s.contains x then s else x :: s

def emptyGwState : GwState := ⟨[], [], []⟩

/-- Connection handling: register the socket id in the user's socket set
(`userSockets.get(userId).add(socket.id)`). -/
def connectSocket (st : GwState) (sid uid : String) : GwState :=
  { st with userSockets := alistUpsert st.userSockets uid [] (fun s => strSetAdd s sid) }

/-- The `leaveRoom` helper.  Returns the new state together with whether a
`chat:member:left` notification was broadcast.  The broadcast fires when at
most one of the user's registered sockets currently has this room's event
id (`socketsInRoom.length <= 1`); on the `chat:leave` path the leaving
socket itself is still registered and counted, while the disconnect path
has already deregistered it. -/
def leaveRoom (st : GwState) (sid uid : String) : GwState × Bool :=
  match alistLookup st.socketEventId sid with
  | none => (st, false)
  | some eventId =>
    -- remove the user from the room's online set, dropping empty rooms
    let rooms1 := alistUpsert st.roomOnlineUsers eventId []
      (fun users => users.filter (fun u => u != uid))
    let rooms2 :=
      match alistLookup rooms1 eventId with
      | some users => if users.isEmpty then alistErase rooms1 eventId else rooms1
      | none => rooms1
    let userSocketIds := (alistLookup st.userSockets uid).getD []
    let socketsInRoom := userSocketIds.filter
      (fun s => alistLookup st.socketEventId s == some eventId)
    let broadcastLeft := socketsInRoom.length ≤ 1
    (({ st with roomOnlineUsers := rooms2
                socketEventId := alistErase st.socketEventId sid }), broadcastLeft)

/-- The `chat:join` handler's room bookkeeping, run after `getOrJoinChat`
has granted the join: leave any previous room, record the socket's event
id, and add the user to the room's online set.  The returned flag reports
whether leaving the previous room broadcast a `chat:member:left`. -/
def handleJoinRoom (st : GwState) (sid uid eventId : String) : GwState × Bool :=
  let (st1, leftPrev) :=
    match alistLookup st.socketEventId sid with
    | some _ => leaveRoom st sid uid
    | none => (st, false)
  let st2 :=
    { st1 with socketEventId := (sid, eventId) :: alistErase st1.socketEventId sid
               roomOnlineUsers := alistUpsert st1.roomOnlineUsers eventId []
                 (fun users => strSetAdd users uid) }
  (st2, leftPrev)

/-- The `disconnect` handler: deregister the socket id from the user's
socket set (dropping the user's entry when it empties) and then run
`leaveRoom`.  Returns whether a `chat:member:left` was broadcast. -/
def handleDisconnect (st : GwState) (sid uid : String) : GwState × Bool :=
  let sockets1 := alistUpsert st.userSockets uid [] (fun s => s.filter (fun x => x != sid))
  let sockets2 :=
    match alistLookup sockets1 uid with
    | some s => if s.isEmpty then alistErase sockets1 uid else sockets1
    | none => sockets1
  leaveRoom { st with userSockets := sockets2 } sid uid

/-! ### Concrete sample data for witness instances -/

def evC1 : Event := { id := "e1", organizerId := "olga", endDate := 1000000 }

def chatC1 : EventChat :=
  { id := 1, eventId := "e1", isActive := false, slowMode := 0, membersOnly := true }

def dbC1 : DB :=
  { events := [evC1], chats := [chatC1], teamMembers := [], attendees := []
    chatMembers := [], chatMessages := [], nextId := 2 }

def chatC3 : EventChat :=
  { id := 1, eventId := "e3", isActive := true, slowMode := 0, membersOnly := true }

def dbC3 : DB :=
  { events := [{ id := "e3", organizerId := "olga", endDate := 1000000 }]
    chats := [chatC3], teamMembers := [], attendees := []
    chatMembers := [{ id := 2, chatId := 1, userId := "alice", role := "MEMBER"
                      isMuted := false, mutedUntil := none, joinedAt := 0, lastSeenAt := 0 }]
    chatMessages := [], nextId := 3 }

/-- A 1001-character message body. -/
def longContent : String := String.mk (List.replicate 1001 'x')

def chatC7 : EventChat :=
  { id := 1, eventId := "e7", isActive := true, slowMode := 0, membersOnly := true }

def modC7 : ChatMember :=
  { id := 5, chatId := 1, userId := "mia", role := "MODERATOR"
    isMuted := false, mutedUntil := none, joinedAt := 0, lastSeenAt := 0 }

def msgC7 : ChatMessage :=
  { id := 7, chatId := 1, senderId := "alice", content := "hi", type := "TEXT"
    replyToId := none, isPinned := false, isDeleted := true, deletedBy := some "mia"
    createdAt := 100 }

def dbC7 : DB :=
  { events := [{ id := "e7", organizerId := "olga", endDate := 1000000 }]
    chats := [chatC7], teamMembers := [], attendees := []
    chatMembers := [modC7]
    chatMessages := [msgC7], nextId := 10 }

/-! ### List helper lemmas -/

theorem find?_map_of_pred_comm {α : Type} (l : List α) (p : α → Bool) (g : α → α)
    (h : ∀ a, p (g a) = p a) :
    (l.map g).find? p = (l.find? p).map g := by
  induction l with
  | nil => rfl
  | cons a t ih =>
    simp only [List.map_cons, List.find?_cons, h a]
    cases hp : p a <;> simp [ih]

theorem filter_map_of_pred_comm {α : Type} (l : List α) (p : α → Bool) (g : α → α)
    (h : ∀ a, p (g a) = p a) :
    (l.map g).filter p = (l.filter p).map g := by
  induction l with
  | nil => rfl
  | cons a t ih =>
    simp only [List.map_cons, List.filter_cons, h a]
    cases hp : p a <;> simp [ih]

theorem filter_eq_singleton_of_nodup {α : Type} (l : List α) (p : α → Bool) (a : α)
    (hnd : l.Nodup) (ha : a ∈ l) (hpa : p a = true)
    (huniq : ∀ b ∈ l, p b = true → b = a) :
    l.filter p = [a] := by
  induction l with
  | nil => cases ha
  | cons x t ih =>
    rcases List.nodup_cons.mp hnd with ⟨hx, hts⟩
    rcases List.mem_cons.mp ha with rfl | hat
    · rw [List.filter_cons_of_pos hpa]
      have : t.filter p = [] := by
        apply List.filter_eq_nil_iff.mpr
        intro b hb hpb
        exact hx (huniq b (List.mem_cons_of_mem _ hb) hpb ▸ hb)
      rw [this]
    · have hpx : p x = false := by
        by_contra hpx
        have hxa := huniq x (List.mem_cons_self _ _) (by simpa using hpx)
        exact hx (hxa ▸ hat)
      rw [List.filter_cons_of_neg (by simp [hpx])]
      exact ih hts hat (fun b hb hpb => huniq b (List.mem_cons_of_mem _ hb) hpb)

theorem find?_of_filter_eq_singleton {α : Type} (l : List α) (p : α → Bool) (a : α)
    (h : l.filter p = [a]) : l.find? p = some a := by
  induction l with
  | nil => simp at h
  | cons x t ih =>
    cases hpx : p x with
    | true =>
      rw [List.filter_cons_of_pos hpx] at h
      have hxa : x = a := (List.cons.injEq _ _ _ _).mp h |>.1
      rw [List.find?_cons_of_pos _ hpx, hxa]
    | false =>
      rw [List.filter_cons_of_neg (by simp [hpx])] at h
      rw [List.find?_cons_of_neg _ (by simp [hpx])]
      exact ih h

theorem filter_eq_nil_of_find?_none {α : Type} (l : List α) (p : α → Bool)
    (h : l.find? p = none) : l.filter p = [] :=
  List.filter_eq_nil_iff.mpr (List.find?_eq_none.mp h)

theorem mem_insertDescByCreated (m x : ChatMessage) (l : List ChatMessage) :
    x ∈ insertDescByCreated m l ↔ x = m ∨ x ∈ l := by
  induction l with
  | nil => simp [insertDescByCreated]
  | cons a t ih =>
    by_cases h : a.createdAt < m.createdAt
    · simp only [insertDescByCreated, if_pos h, List.mem_cons]
    · simp only [insertDescByCreated, if_neg h, List.mem_cons, ih]
      tauto

theorem mem_sortDescByCreated (x : ChatMessage) (l : List ChatMessage) :
    x ∈ sortDescByCreated l ↔ x ∈ l := by
  induction l with
  | nil => simp [sortDescByCreated]
  | cons a t ih =>
    simp [sortDescByCreated, mem_insertDescByCreated, ih]

/-! ### Claim theorems -/

/-- C1: for every chat and caller, an inactive chat or a current time past
the event's end date plus the 24-hour grace window makes `getOrJoinChat`
return `chat = null`, `canJoin = false`, `reason = CHAT_DISABLED`,
whatever role the caller would resolve to; the database is left unchanged. -/
theorem getOrJoinChat_disabled (db : DB) (now : Nat) (eventId userId : String)
    (ev : Event) (chat : EventChat)
    (hev : findEvent db eventId = some ev)
    (hchat : findChatByEvent db eventId = some chat)
    (h : chat.isActive = false ∨ ev.endDate + GRACE_MS < now) :
    getOrJoinChat db now eventId userId =
      some ({ chat := none, canJoin := false, reason := some "CHAT_DISABLED" }, db) := by
  unfold getOrJoinChat getOrCreateChat
  rw [hev, hchat]
  rcases h with h | h
  · simp [h]
  · simp [h]

/-- Witness for `getOrJoinChat_disabled` at a concrete inactive chat. -/
theorem getOrJoinChat_disabled_witness :
    getOrJoinChat dbC1 0 "e1" "uma" =
      some ({ chat := none, canJoin := false, reason := some "CHAT_DISABLED" }, dbC1) :=
  getOrJoinChat_disabled dbC1 0 "e1" "uma" evC1 chatC1 (by decide) (by decide)
    (Or.inl (by decide))

/-- Helper: the slow-mode gate only ever produces a `SLOW_MODE` error. -/
theorem sendMessageSlowStep_error (db1 : DB) (now : Nat) (userId : String)
    (chat : EventChat) (member : ChatMember) (e : ChatError)
    (hs : sendMessageSlowStep db1 now userId chat member = .error e) :
    ∃ r, e = ChatError.slowMode r := by
  unfold sendMessageSlowStep at hs
  by_cases hcond : 0 < chat.slowMode ∧ member.role = "MEMBER"
  · rw [if_pos hcond] at hs
    rcases hlm : mostRecentMessageBySender db1 chat.id userId with _ | lm
    · simp only [hlm] at hs
      exact Except.noConfusion hs
    · simp only [hlm] at hs
      by_cases hg : (now : Int) - (lm.createdAt : Int) < (chat.slowMode : Int) * 1000
      · rw [if_pos hg] at hs
        exact ⟨_, (Except.error.inj hs).symm⟩
      · rw [if_neg hg] at hs
        exact Except.noConfusion hs
  · rw [if_neg hcond] at hs
    exact Except.noConfusion hs

/-- Helper: the post-mute pipeline never raises `MESSAGE_TOO_LONG`. -/
theorem sendMessageRest_fst_ne_tooLong (db1 : DB) (now : Nat)
    (userId content type : String) (replyToId : Option Nat)
    (chat : EventChat) (member : ChatMember) :
    (sendMessageRest db1 now userId content type replyToId chat member).1 ≠
      Except.error ChatError.messageTooLong := by
  unfold sendMessageRest
  by_cases ha : type = "ANNOUNCEMENT" ∧ (permissionsFor member.role).canAnnounce = false
  · simp [ha]
  · rw [if_neg ha]
    rcases hss : sendMessageSlowStep db1 now userId chat member with e | u
    · rcases sendMessageSlowStep_error db1 now userId chat member e hss with ⟨r, rfl⟩
      simp
    · simp only []
      rcases replyToId with _ | rid
      · simp [sendMessageInsert]
      · rcases hr : findMessage db1 rid with _ | rm
        · simp [hr]
        · simp [hr, sendMessageInsert]

/-- C3: a message body longer than 1000 characters is rejected with
`MESSAGE_TOO_LONG` and the database is returned untouched — the length
guard runs before any lookup or write; a body of at most 1000 characters
never produces that error. -/
theorem sendMessage_length_check (db : DB) (now : Nat)
    (eventId userId content type : String) (replyToId : Option Nat) :
    (MAX_MESSAGE_LENGTH < content.length →
      sendMessage db now eventId userId content type replyToId =
        (Except.error ChatError.messageTooLong, db)) ∧
    (content.length ≤ MAX_MESSAGE_LENGTH →
      (sendMessage db now eventId userId content type replyToId).1 ≠
        Except.error ChatError.messageTooLong) := by
  constructor
  · intro h
    unfold sendMessage
    rw [if_pos h]
  · intro h
    unfold sendMessage
    rw [if_neg (by omega)]
    rcases hc : findChatByEvent db eventId with _ | chat
    · simp [hc]
    · simp only [hc]
      by_cases hact : chat.isActive = false
      · simp [hact]
      · rw [if_neg hact]
        rcases hm : findMember db chat.id userId with _ | member
        · simp [hm]
        · simp only [hm]
          rcases hmu : sendMessageMuteStep db now member with e | db1
          · have he : e = ChatError.userMuted := by
              unfold sendMessageMuteStep at hmu
              by_cases hb : member.isMuted = true
              · rw [if_pos hb] at hmu
                rcases hmt : member.mutedUntil with _ | t
                · simp only [hmt] at hmu
                  exact (Except.error.inj hmu).symm
                · simp only [hmt] at hmu
                  by_cases hlt : now < t
                  · rw [if_pos hlt] at hmu
                    exact (Except.error.inj hmu).symm
                  · rw [if_neg hlt] at hmu
                    exact Except.noConfusion hmu
              · rw [if_neg hb] at hmu
                exact Except.noConfusion hmu
            simp [hmu, he]
          · simp only [hmu]
            exact sendMessageRest_fst_ne_tooLong db1 now userId content type replyToId
              chat member

set_option maxRecDepth 40000 in
/-- Witness for `sendMessage_length_check` on a 1001-character and a short body. -/
theorem sendMessage_length_check_witness :
    sendMessage dbC3 0 "e3" "alice" longContent "TEXT" none =
      (Except.error ChatError.messageTooLong, dbC3) ∧
    (sendMessage dbC3 0 "e3" "alice" "hello" "TEXT" none).1 ≠
      Except.error ChatError.messageTooLong :=
  ⟨(sendMessage_length_check dbC3 0 "e3" "alice" longContent "TEXT" none).1 (by decide),
   (sendMessage_length_check dbC3 0 "e3" "alice" "hello" "TEXT" none).2 (by decide)⟩

/-- C7 counterexample: in `dbC7` message 7 is soft-deleted, yet
`moderateMessage` with action `pin` by a moderator succeeds and sets the
pinned flag on the tombstoned row — the claim that a deleted message may
not be pinned or unpinned is false on the code, which never consults the
tombstone flag in the pin branch. -/
theorem moderateMessage_pins_deleted_cex :
    msgC7.isDeleted = true ∧
    (moderateMessage dbC7 "e7" 7 "mia" "pin").1 =
      Except.ok { messageId := 7, action := "pin", isPinned := some true, deletedBy := none } ∧
    findMessage (moderateMessage dbC7 "e7" 7 "mia" "pin").2 7 =
      some { msgC7 with isPinned := true } := by
  refine ⟨rfl, rfl, rfl⟩

theorem findMessage_updateMessageRow (db : DB) (mid target : Nat)
    (f : ChatMessage → ChatMessage) (hf : ∀ m, (f m).id = m.id) :
    findMessage (updateMessageRow db mid f) target =
      (findMessage db target).map (fun m => if m.id == mid then f m else m) := by
  unfold findMessage updateMessageRow
  exact find?_map_of_pred_comm _ _ _
    (fun a => by by_cases h : (a.id == mid) = true <;> simp [h, hf])

/-- Helper: every message row in a `getMessages` page has a clear
soft-deleted flag — the history query filters on `isDeleted: false`. -/
theorem getMessages_excludes_deleted (db : DB) (eventId uid : String)
    (before : Option Nat) (limit : Nat) (page : List ChatMessage) (hasMore : Bool)
    (h : getMessages db eventId uid before limit = .ok (page, hasMore)) :
    ∀ m ∈ page, m.isDeleted = false := by
  unfold getMessages at h
  rcases hc : findChatByEvent db eventId with _ | chat
  · rw [hc] at h
    exact Except.noConfusion h
  · simp only [hc] at h
    rcases hm : findMember db chat.id uid with _ | mem
    · simp only [hm] at h
      exact Except.noConfusion h
    · simp only [hm] at h
      simp only [Except.ok.injEq, Prod.mk.injEq] at h
      intro m hmp
      rw [← h.1] at hmp
      rw [List.mem_reverse] at hmp
      have h2 := List.take_subset _ _ hmp
      rw [mem_sortDescByCreated] at h2
      have h3 := List.mem_filter.mp h2
      have h4 := h3.2
      simp only [Bool.and_eq_true, Bool.not_eq_true'] at h4
      exact h4.1.2

/-- C7 (amended): `moderateMessage` never consults the tombstone flag, so a
soft-deleted message can still be pinned or unpinned by an actor holding the
pin permission; the deleted message remains excluded from default history
reads, and the delete action leaves a tombstone that keeps the content and
records the deleter. -/
theorem moderateMessage_deleted_tombstone (db : DB) (eventId : String) (messageId : Nat)
    (userId : String) (chat : EventChat) (member : ChatMember) (message : ChatMessage)
    (hchat : findChatByEvent db eventId = some chat)
    (hmem : findMember db chat.id userId = some member)
    (hmsg : findMessage db messageId = some message)
    (hsame : message.chatId = chat.id)
    (hdel : message.isDeleted = true)
    (hpin : (permissionsFor member.role).canPin = true) :
    moderateMessage db eventId messageId userId "pin" =
      (Except.ok { messageId := messageId, action := "pin", isPinned := some true, deletedBy := none },
       updateMessageRow db messageId (fun m => { m with isPinned := true })) ∧
    moderateMessage db eventId messageId userId "unpin" =
      (Except.ok { messageId := messageId, action := "unpin", isPinned := some false, deletedBy := none },
       updateMessageRow db messageId (fun m => { m with isPinned := false })) ∧
    (∀ uid2 before limit page hasMore,
      getMessages db eventId uid2 before limit = .ok (page, hasMore) → message ∉ page) ∧
    ((if message.senderId == userId then (permissionsFor member.role).canDeleteOwn
        else (permissionsFor member.role).canDeleteAny) = true →
      findMessage (moderateMessage db eventId messageId userId "delete").2 messageId =
        some { message with isDeleted := true, deletedBy := some userId }) := by
  have hmid : (message.id == messageId) = true := by
    have := List.find?_some hmsg
    simpa using this
  refine ⟨?_, ?_, ?_, ?_⟩
  · unfold moderateMessage
    simp only [hchat, hmem, hmsg]
    simp [hsame, hpin]
  · unfold moderateMessage
    simp only [hchat, hmem, hmsg]
    simp [hsame, hpin, show (("unpin" : String) == "pin") = false from rfl,
      show (("unpin" : String) == "delete") = false from rfl,
      show (("unpin" : String) == "unpin") = true from rfl]
  · intro uid2 before limit page hasMore hgm hmp
    have := getMessages_excludes_deleted db eventId uid2 before limit page hasMore hgm
      message hmp
    rw [hdel] at this
    cases this
  · intro hperm
    unfold moderateMessage
    simp only [hchat, hmem, hmsg]
    by_cases hown : (message.senderId == userId) = true
    · rw [if_pos hown] at hperm
      simp [hsame, hown, hperm, findMessage_updateMessageRow db messageId messageId
        (fun m => { m with isDeleted := true, deletedBy := some userId }) (fun m => rfl),
        hmsg, hmid]
      intro hne
      exact absurd (by simpa using hmid) hne
    · rw [if_neg hown] at hperm
      simp [hsame, hown, hperm, findMessage_updateMessageRow db messageId messageId
        (fun m => { m with isDeleted := true, deletedBy := some userId }) (fun m => rfl),
        hmsg, hmid]
      intro hne
      exact absurd (by simpa using hmid) hne

/-- Witness for `moderateMessage_deleted_tombstone` at the concrete store
`dbC7`: the page for its only (deleted) message is empty. -/
theorem moderateMessage_deleted_tombstone_witness :
    moderateMessage dbC7 "e7" 7 "mia" "pin" =
      (Except.ok { messageId := 7, action := "pin", isPinned := some true, deletedBy := none },
       updateMessageRow dbC7 7 (fun m => { m with isPinned := true })) ∧
    msgC7 ∉ ([] : List ChatMessage) ∧
    findMessage (moderateMessage dbC7 "e7" 7 "mia" "delete").2 7 =
      some { msgC7 with isDeleted := true, deletedBy := some "mia" } := by
  have T := moderateMessage_deleted_tombstone dbC7 "e7" 7 "mia" chatC7 modC7 msgC7
    (by decide) (by decide) (by decide) (by decide) (by decide) (by decide)
  exact ⟨T.1, T.2.2.1 "mia" none 50 [] false rfl, T.2.2.2 (by decide)⟩

/-! ### C6: mute authorization and rank ordering -/

def chatC6 : EventChat :=
  { id := 1, eventId := "e6", isActive := true, slowMode := 0, membersOnly := true }

def orgC6 : ChatMember :=
  { id := 2, chatId := 1, userId := "olga", role := "ORGANIZER"
    isMuted := false, mutedUntil := none, joinedAt := 0, lastSeenAt := 0 }

def modC6 : ChatMember :=
  { id := 3, chatId := 1, userId := "mia", role := "MODERATOR"
    isMuted := false, mutedUntil := none, joinedAt := 0, lastSeenAt := 0 }

def memC6 : ChatMember :=
  { id := 4, chatId := 1, userId := "bob", role := "MEMBER"
    isMuted := false, mutedUntil := none, joinedAt := 0, lastSeenAt := 0 }

def dbC6 : DB :=
  { events := [{ id := "e6", organizerId := "olga", endDate := 1000000 }]
    chats := [chatC6], teamMembers := [], attendees := []
    chatMembers := [orgC6, modC6, memC6], chatMessages := [], nextId := 5 }

/-- C6: `muteUser` applies the mute only when the actor holds `canMute`, the
target is an existing member, and the actor's role rank strictly exceeds the
target's (`member=0 < moderator=1 < organizer=2`); a moderator muting the
organizer, or any actor muting a target of equal rank, gets
`NOT_AUTHORIZED`, while a moderator muting a plain member succeeds. -/
theorem muteUser_rank_check (db : DB) (now : Nat)
    (eventId targetUserId actorUserId : String) (durationMinutes : Nat)
    (chat : EventChat) (actor target : ChatMember) (ra rt : Nat)
    (hchat : findChatByEvent db eventId = some chat)
    (hactor : findMember db chat.id actorUserId = some actor)
    (htarget : findMember db chat.id targetUserId = some target)
    (hra : roleOrder actor.role = some ra)
    (hrt : roleOrder target.role = some rt) :
    ((∃ res, (muteUser db now eventId targetUserId actorUserId durationMinutes).1 =
        Except.ok res) ↔
      ((permissionsFor actor.role).canMute = true ∧ rt < ra)) ∧
    (actor.role = "MODERATOR" → target.role = "ORGANIZER" →
      muteUser db now eventId targetUserId actorUserId durationMinutes =
        (Except.error ChatError.notAuthorized, db)) ∧
    (actor.role = target.role →
      muteUser db now eventId targetUserId actorUserId durationMinutes =
        (Except.error ChatError.notAuthorized, db)) ∧
    (actor.role = "MODERATOR" → target.role = "MEMBER" → 0 < durationMinutes →
      muteUser db now eventId targetUserId actorUserId durationMinutes =
        (Except.ok { userId := targetUserId, isMuted := true
                     untilTime := some (now + durationMinutes * 60 * 1000) },
         updateMemberRow db target.id (fun m =>
           { m with isMuted := true
                    mutedUntil := some (now + durationMinutes * 60 * 1000) }))) := by
  have hcmp : targetRankAtLeastActor target.role actor.role = decide (ra ≤ rt) := by
    unfold targetRankAtLeastActor
    rw [hrt, hra]
  have hM : muteUser db now eventId targetUserId actorUserId durationMinutes =
      (if (!(permissionsFor actor.role).canMute) = true then
        (Except.error ChatError.notAuthorized, db)
      else if targetRankAtLeastActor target.role actor.role = true then
        (Except.error ChatError.notAuthorized, db)
      else if (durationMinutes == 0) = true then
        (Except.ok { userId := targetUserId, isMuted := false, untilTime := none },
         updateMemberRow db target.id (fun m => { m with isMuted := false, mutedUntil := none }))
      else
        (Except.ok { userId := targetUserId, isMuted := true
                     untilTime := some (now + durationMinutes * 60 * 1000) },
         updateMemberRow db target.id (fun m =>
           { m with isMuted := true
                    mutedUntil := some (now + durationMinutes * 60 * 1000) }))) := by
    unfold muteUser
    simp only [hchat, hactor, htarget]
  refine ⟨?_, ?_, ?_, ?_⟩
  · constructor
    · rintro ⟨res, hres⟩
      simp only [hM, hcmp] at hres
      by_cases h1 : (permissionsFor actor.role).canMute = true
      · by_cases h2 : ra ≤ rt
        · simp [h1, h2] at hres
        · exact ⟨h1, by omega⟩
      · simp [h1] at hres
    · rintro ⟨h1, h2⟩
      simp only [hM, hcmp]
      by_cases h3 : durationMinutes = 0
      · refine ⟨{ userId := targetUserId, isMuted := false, untilTime := none }, ?_⟩
        simp [h1, h3, show ¬ ra ≤ rt by omega]
      · refine ⟨{ userId := targetUserId, isMuted := true
                  untilTime := some (now + durationMinutes * 60 * 1000) }, ?_⟩
        simp [h1, h3, show ¬ ra ≤ rt by omega]
  · intro ha hb
    have hcm : (permissionsFor actor.role).canMute = true := by rw [ha]; rfl
    have h2 : targetRankAtLeastActor target.role actor.role = true := by
      unfold targetRankAtLeastActor
      rw [hb, ha]
      rfl
    simp [hM, hcm, h2]
  · intro ha
    have hrr : rt = ra := by
      rw [ha] at hra
      rw [hra] at hrt
      exact (Option.some.inj hrt).symm
    simp only [hM, hcmp]
    by_cases hcm2 : (permissionsFor actor.role).canMute = true
    · simp [hcm2, hrr]
    · simp [hcm2]
  · intro ha hb hd
    have hcm : (permissionsFor actor.role).canMute = true := by rw [ha]; rfl
    have h2 : targetRankAtLeastActor target.role actor.role = false := by
      unfold targetRankAtLeastActor
      rw [hb, ha]
      rfl
    simp [hM, hcm, h2, show durationMinutes ≠ 0 by omega]

/-- Witness for `muteUser_rank_check`: the moderator `mia` cannot mute the
organizer `olga` but does mute the plain member `bob`. -/
theorem muteUser_rank_check_witness :
    muteUser dbC6 1000 "e6" "olga" "mia" 10 = (Except.error ChatError.notAuthorized, dbC6) ∧
    muteUser dbC6 1000 "e6" "bob" "mia" 10 =
      (Except.ok { userId := "bob", isMuted := true, untilTime := some 601000 },
       updateMemberRow dbC6 4 (fun m =>
         { m with isMuted := true, mutedUntil := some 601000 })) :=
  ⟨(muteUser_rank_check dbC6 1000 "e6" "olga" "mia" 10 chatC6 modC6 orgC6 1 2
      (by decide) (by decide) (by decide) (by decide) (by decide)).2.1 rfl rfl,
   (muteUser_rank_check dbC6 1000 "e6" "bob" "mia" 10 chatC6 modC6 memC6 1 0
      (by decide) (by decide) (by decide) (by decide) (by decide)).2.2.2 rfl rfl
     (by decide)⟩

/-! ### C9: gateway disconnect broadcast -/

/-- Gateway state with one user `u` holding two live connections `sockA`,
`sockB`, both joined to the room of event `ev1`. -/
def gwTwoSockets : GwState :=
  (handleJoinRoom
    ((handleJoinRoom
        (connectSocket (connectSocket emptyGwState "sockA" "u") "sockB" "u")
        "sockA" "u" "ev1").1)
    "sockB" "u" "ev1").1

/-- C9 (code bug): with two connections of the same user joined to one room,
the disconnect of the first already broadcasts `chat:member:left` although
the second connection is still in the room — the disconnect handler removes
the socket from `userSockets` before `leaveRoom`, whose
`socketsInRoom.length <= 1` threshold assumes the leaving socket is still
counted (as on the explicit `chat:leave` path, which correctly stays
silent here). -/
theorem gateway_disconnect_spurious_member_left :
    (handleDisconnect gwTwoSockets "sockA" "u").2 = true ∧
    alistLookup (handleDisconnect gwTwoSockets "sockA" "u").1.socketEventId "sockB" =
      some "ev1" ∧
    (handleDisconnect (handleDisconnect gwTwoSockets "sockA" "u").1 "sockB" "u").2 = true ∧
    (leaveRoom gwTwoSockets "sockA" "u").2 = false := by
  exact ⟨rfl, rfl, rfl, rfl⟩

/-! ### C5 / C10: slow mode -/

/-- The message row `sendMessage` persists on success. -/
def insertedMessage (db : DB) (now : Nat) (chatId : Nat)
    (userId content type : String) (replyToId : Option Nat) : ChatMessage :=
  { id := db.nextId, chatId := chatId, senderId := userId, content := content
    type := type, replyToId := replyToId, isPinned := false, isDeleted := false
    deletedBy := none, createdAt := now }

/-- The store after a successful `sendMessage`: the new message row plus the
sender's last-seen bump. -/
def dbAfterInsert (db : DB) (now : Nat) (chatId : Nat)
    (userId content type : String) (replyToId : Option Nat) (memberId : Nat) : DB :=
  updateMemberRow
    { db with chatMessages := insertedMessage db now chatId userId content type replyToId
                :: db.chatMessages
              nextId := db.nextId + 1 }
    memberId (fun x => { x with lastSeenAt := now })

theorem findMember_updateMemberRow (db : DB) (mid : Nat) (f : ChatMember → ChatMember)
    (hf : ∀ m, (f m).chatId = m.chatId ∧ (f m).userId = m.userId)
    (cid : Nat) (uid : String) :
    findMember (updateMemberRow db mid f) cid uid =
      (findMember db cid uid).map (fun m => if m.id == mid then f m else m) := by
  unfold findMember updateMemberRow
  exact find?_map_of_pred_comm _ _ _ (fun a => by
    by_cases h : (a.id == mid) = true <;> simp [h, (hf a).1, (hf a).2])

/-- Membership lookups see only the last-seen bump after a send. -/
theorem findMember_dbAfterInsert (db : DB) (now : Nat) (chatId : Nat)
    (userId content type : String) (replyToId : Option Nat) (memberId : Nat)
    (cid : Nat) (uid : String) :
    findMember (dbAfterInsert db now chatId userId content type replyToId memberId) cid uid =
      (findMember db cid uid).map
        (fun m => if m.id == memberId then { m with lastSeenAt := now } else m) := by
  unfold dbAfterInsert
  rw [findMember_updateMemberRow _ memberId (fun x => { x with lastSeenAt := now })
    (fun m => ⟨rfl, rfl⟩) cid uid]
  rfl

/-- Helper: the rejection of a plain member inside the slow-mode window,
with the remaining wait carried in the error. -/
theorem sendMessage_slow_member_reject (db : DB) (now : Nat)
    (eventId userId content : String) (replyToId : Option Nat)
    (chat : EventChat) (member : ChatMember) (lm : ChatMessage)
    (hlen : content.length ≤ MAX_MESSAGE_LENGTH)
    (hchat : findChatByEvent db eventId = some chat)
    (hactive : chat.isActive = true)
    (hmem : findMember db chat.id userId = some member)
    (hmute : member.isMuted = false)
    (hrole : member.role = "MEMBER")
    (hslow : 0 < chat.slowMode)
    (hlast : mostRecentMessageBySender db chat.id userId = some lm)
    (hgap : (now : Int) - (lm.createdAt : Int) < (chat.slowMode : Int) * 1000) :
    sendMessage db now eventId userId content "TEXT" replyToId =
      (Except.error (ChatError.slowMode (slowModeRemaining chat.slowMode
        ((now : Int) - (lm.createdAt : Int)))), db) := by
  unfold sendMessage
  rw [if_neg (by omega)]
  simp only [hchat]
  rw [if_neg (by simp [hactive])]
  simp only [hmem]
  have hms : sendMessageMuteStep db now member = .ok db := by
    unfold sendMessageMuteStep
    rw [if_neg (by simp [hmute])]
  simp only [hms]
  unfold sendMessageRest
  rw [if_neg (fun hco => absurd hco.1 (by decide))]
  have hss : sendMessageSlowStep db now userId chat member =
      .error (.slowMode (slowModeRemaining chat.slowMode
        ((now : Int) - (lm.createdAt : Int)))) := by
    unfold sendMessageSlowStep
    rw [if_pos ⟨hslow, hrole⟩]
    simp only [hlast]
    rw [if_pos hgap]
  simp only [hss]

/-- Helper: a sender whose stored role skips the slow-mode branch gets the
message inserted (text message, no reply). -/
theorem sendMessage_text_ok_skip_slow (db : DB) (now : Nat)
    (eventId userId content : String) (chat : EventChat) (member : ChatMember)
    (hlen : content.length ≤ MAX_MESSAGE_LENGTH)
    (hchat : findChatByEvent db eventId = some chat)
    (hactive : chat.isActive = true)
    (hmem : findMember db chat.id userId = some member)
    (hmute : member.isMuted = false)
    (hnotmem : member.role ≠ "MEMBER") :
    sendMessage db now eventId userId content "TEXT" none =
      (Except.ok { id := db.nextId, content := content, type := "TEXT"
                   senderId := userId, senderRole := toLowerStr member.role
                   replyTo := none, isPinned := false, createdAt := now },
       dbAfterInsert db now chat.id userId content "TEXT" none member.id) := by
  unfold sendMessage
  rw [if_neg (by omega)]
  simp only [hchat]
  rw [if_neg (by simp [hactive])]
  simp only [hmem]
  have hms : sendMessageMuteStep db now member = .ok db := by
    unfold sendMessageMuteStep
    rw [if_neg (by simp [hmute])]
  simp only [hms]
  unfold sendMessageRest
  rw [if_neg (fun hco => absurd hco.1 (by decide))]
  have hss : sendMessageSlowStep db now userId chat member = .ok () := by
    unfold sendMessageSlowStep
    rw [if_neg (fun hco => hnotmem hco.2)]
  simp only [hss]
  unfold sendMessageInsert dbAfterInsert insertedMessage
  rfl

/-- C5: with `slowMode > 0`, a sender stored as plain `MEMBER` whose last
message in the chat is younger than `slowMode` seconds is rejected with a
`SLOW_MODE` error carrying the remaining wait rounded up to whole seconds
(the two bounds pin the carried value as the ceiling of the remaining
time); a sender stored as moderator or organizer skips the check entirely,
so two consecutive sends at any two instants both succeed. -/
theorem sendMessage_slowMode (db : DB) (now now2 : Nat)
    (eventId userId content : String) (replyToId : Option Nat)
    (chat : EventChat) (member : ChatMember) (lm : ChatMessage)
    (hlen : content.length ≤ MAX_MESSAGE_LENGTH)
    (hchat : findChatByEvent db eventId = some chat)
    (hactive : chat.isActive = true)
    (hmem : findMember db chat.id userId = some member)
    (hmute : member.isMuted = false)
    (hslow : 0 < chat.slowMode) :
    (member.role = "MEMBER" →
      mostRecentMessageBySender db chat.id userId = some lm →
      (now : Int) - (lm.createdAt : Int) < (chat.slowMode : Int) * 1000 →
      sendMessage db now eventId userId content "TEXT" replyToId =
        (Except.error (ChatError.slowMode (slowModeRemaining chat.slowMode
          ((now : Int) - (lm.createdAt : Int)))), db) ∧
      ((chat.slowMode : Int) * 1000 - ((now : Int) - (lm.createdAt : Int)) ≤
          1000 * slowModeRemaining chat.slowMode ((now : Int) - (lm.createdAt : Int)) ∧
        1000 * slowModeRemaining chat.slowMode ((now : Int) - (lm.createdAt : Int)) <
          (chat.slowMode : Int) * 1000 - ((now : Int) - (lm.createdAt : Int)) + 1000)) ∧
    (member.role = "MODERATOR" ∨ member.role = "ORGANIZER" →
      sendMessage db now eventId userId content "TEXT" none =
        (Except.ok { id := db.nextId, content := content, type := "TEXT"
                     senderId := userId, senderRole := toLowerStr member.role
                     replyTo := none, isPinned := false, createdAt := now },
         dbAfterInsert db now chat.id userId content "TEXT" none member.id) ∧
      sendMessage (dbAfterInsert db now chat.id userId content "TEXT" none member.id)
          now2 eventId userId content "TEXT" none =
        (Except.ok { id := db.nextId + 1, content := content, type := "TEXT"
                     senderId := userId, senderRole := toLowerStr member.role
                     replyTo := none, isPinned := false, createdAt := now2 },
         dbAfterInsert (dbAfterInsert db now chat.id userId content "TEXT" none member.id)
           now2 chat.id userId content "TEXT" none member.id)) := by
  constructor
  · intro hrole hlast hgap
    refine ⟨sendMessage_slow_member_reject db now eventId userId content replyToId
      chat member lm hlen hchat hactive hmem hmute hrole hslow hlast hgap, ?_, ?_⟩
    · unfold slowModeRemaining
      omega
    · unfold slowModeRemaining
      omega
  · intro hrole
    have hnotmem : member.role ≠ "MEMBER" := by
      rcases hrole with h2 | h2 <;> rw [h2] <;> decide
    have hfirst := sendMessage_text_ok_skip_slow db now eventId userId content
      chat member hlen hchat hactive hmem hmute hnotmem
    refine ⟨hfirst, ?_⟩
    have hchat2 : findChatByEvent
        (dbAfterInsert db now chat.id userId content "TEXT" none member.id) eventId =
        some chat := hchat
    have hmem2 : findMember
        (dbAfterInsert db now chat.id userId content "TEXT" none member.id) chat.id userId =
        some { member with lastSeenAt := now } := by
      rw [findMember_dbAfterInsert, hmem]
      simp
    have hsecond := sendMessage_text_ok_skip_slow
      (dbAfterInsert db now chat.id userId content "TEXT" none member.id) now2
      eventId userId content chat { member with lastSeenAt := now }
      hlen hchat2 hactive hmem2 hmute hnotmem
    exact hsecond

/-- Sample store for the slow-mode witnesses: `slowMode = 30` seconds, plain
member `amy` with a message at t = 10s, moderator `mia`. -/
def chatC5 : EventChat :=
  { id := 1, eventId := "e5", isActive := true, slowMode := 30, membersOnly := true }

def memC5 : ChatMember :=
  { id := 2, chatId := 1, userId := "amy", role := "MEMBER"
    isMuted := false, mutedUntil := none, joinedAt := 0, lastSeenAt := 0 }

def modC5 : ChatMember :=
  { id := 3, chatId := 1, userId := "mia", role := "MODERATOR"
    isMuted := false, mutedUntil := none, joinedAt := 0, lastSeenAt := 0 }

def msgC5 : ChatMessage :=
  { id := 4, chatId := 1, senderId := "amy", content := "hi", type := "TEXT"
    replyToId := none, isPinned := false, isDeleted := false, deletedBy := none
    createdAt := 10000 }

def dbC5 : DB :=
  { events := [{ id := "e5", organizerId := "olga", endDate := 10000000 }]
    chats := [chatC5], teamMembers := [], attendees := []
    chatMembers := [memC5, modC5], chatMessages := [msgC5], nextId := 5 }

/-- Witness for `sendMessage_slowMode`: at t = 20s `amy` is rejected with 20
seconds remaining, while `mia` sends twice (t = 20s and t = 25s) with both
calls succeeding. -/
theorem sendMessage_slowMode_witness :
    sendMessage dbC5 20000 "e5" "amy" "hi" "TEXT" none =
      (Except.error (ChatError.slowMode 20), dbC5) ∧
    sendMessage dbC5 20000 "e5" "mia" "hi" "TEXT" none =
      (Except.ok { id := 5, content := "hi", type := "TEXT", senderId := "mia"
                   senderRole := "moderator", replyTo := none, isPinned := false
                   createdAt := 20000 },
       dbAfterInsert dbC5 20000 1 "mia" "hi" "TEXT" none 3) ∧
    sendMessage (dbAfterInsert dbC5 20000 1 "mia" "hi" "TEXT" none 3)
        25000 "e5" "mia" "hi" "TEXT" none =
      (Except.ok { id := 6, content := "hi", type := "TEXT", senderId := "mia"
                   senderRole := "moderator", replyTo := none, isPinned := false
                   createdAt := 25000 },
       dbAfterInsert (dbAfterInsert dbC5 20000 1 "mia" "hi" "TEXT" none 3)
         25000 1 "mia" "hi" "TEXT" none 3) := by
  have T := sendMessage_slowMode dbC5 20000 25000 "e5" "amy" "hi" none
    chatC5 memC5 msgC5 (by decide) (by decide) (by decide) (by decide) (by decide)
    (by decide)
  have Tm := sendMessage_slowMode dbC5 20000 25000 "e5" "mia" "hi" none
    chatC5 modC5 msgC5 (by decide) (by decide) (by decide) (by decide) (by decide)
    (by decide)
  refine ⟨?_, ?_, ?_⟩
  · exact (T.1 rfl rfl (by decide)).1
  · exact (Tm.2 (Or.inl rfl)).1
  · exact (Tm.2 (Or.inl rfl)).2

/-- Store for the C10 witness: identical to `dbC5` except that `amy`'s only
message is soft-deleted. -/
def msgC10 : ChatMessage := { msgC5 with isDeleted := true, deletedBy := some "mia" }

def dbC10 : DB := { dbC5 with chatMessages := [msgC10] }

/-- C10 (implicit): the slow-mode query `findFirst({ chatId, senderId })`
carries no `isDeleted` filter, so a tombstoned most recent message still
opens the waiting window and gets the member's next send rejected with
`SLOW_MODE`. -/
theorem sendMessage_slowMode_counts_deleted (db : DB) (now : Nat)
    (eventId userId content : String) (replyToId : Option Nat)
    (chat : EventChat) (member : ChatMember) (lm : ChatMessage)
    (hlen : content.length ≤ MAX_MESSAGE_LENGTH)
    (hchat : findChatByEvent db eventId = some chat)
    (hactive : chat.isActive = true)
    (hmem : findMember db chat.id userId = some member)
    (hmute : member.isMuted = false)
    (hrole : member.role = "MEMBER")
    (hslow : 0 < chat.slowMode)
    (hlast : mostRecentMessageBySender db chat.id userId = some lm)
    (_hdeleted : lm.isDeleted = true)
    (hgap : (now : Int) - (lm.createdAt : Int) < (chat.slowMode : Int) * 1000) :
    sendMessage db now eventId userId content "TEXT" replyToId =
      (Except.error (ChatError.slowMode (slowModeRemaining chat.slowMode
        ((now : Int) - (lm.createdAt : Int)))), db) :=
  sendMessage_slow_member_reject db now eventId userId content replyToId
    chat member lm hlen hchat hactive hmem hmute hrole hslow hlast hgap

/-- Witness for `sendMessage_slowMode_counts_deleted`: in `dbC10` the only
message of `amy` is a tombstone, yet her send at t = 20s is rejected with 20
seconds of wait remaining. -/
theorem sendMessage_slowMode_counts_deleted_witness :
    msgC10.isDeleted = true ∧
    sendMessage dbC10 20000 "e5" "amy" "hi" "TEXT" none =
      (Except.error (ChatError.slowMode 20), dbC10) :=
  ⟨rfl, sendMessage_slowMode_counts_deleted dbC10 20000 "e5" "amy" "hi" none
    chatC5 memC5 msgC10 (by decide) (by decide) (by decide) (by decide) (by decide)
    rfl (by decide) (by decide) (by decide) (by decide)⟩

/-! ### C2: members-only ticket gate -/

def evC2 : Event := { id := "e2", organizerId := "olga", endDate := 1000000 }

def chatC2 : EventChat :=
  { id := 1, eventId := "e2", isActive := true, slowMode := 0, membersOnly := true }

def dbC2 : DB :=
  { events := [evC2], chats := [chatC2], teamMembers := [], attendees := []
    chatMembers := [], chatMessages := [], nextId := 2 }

/-- C2: on a joinable members-only chat, a caller resolving to plain
`MEMBER` without a confirmed ticket gets `canJoin = false` with reason
`NO_TICKET` and the chat info included (not null, and a reason distinct
from `CHAT_DISABLED`); a caller resolving to `ORGANIZER` or `MODERATOR`
skips the ticket lookup entirely and the join proceeds with
`canJoin = true`. -/
theorem getOrJoinChat_members_only (db : DB) (now : Nat) (eventId userId : String)
    (ev : Event) (chat : EventChat)
    (hev : findEvent db eventId = some ev)
    (hchat : findChatByEvent db eventId = some chat)
    (hactive : chat.isActive = true)
    (hnotexp : ¬ (ev.endDate + GRACE_MS < now))
    (hmo : chat.membersOnly = true) :
    (resolveUserRole db ev eventId userId = "MEMBER" →
      confirmedAttendeeExists db eventId userId = false →
      getOrJoinChat db now eventId userId =
        some ({ chat := some (formatChatInfo chat
                  ((db.chatMembers.filter (fun m => m.chatId == chat.id)).length)
                  "MEMBER" false)
                canJoin := false, reason := some "NO_TICKET" }, db)) ∧
    ((resolveUserRole db ev eventId userId = "ORGANIZER" ∨
        resolveUserRole db ev eventId userId = "MODERATOR") →
      getOrJoinChat db now eventId userId =
        some (joinSuccess db now chat userId (resolveUserRole db ev eventId userId)
          ((db.chatMembers.filter (fun m => m.chatId == chat.id)).length)) ∧
      (joinSuccess db now chat userId (resolveUserRole db ev eventId userId)
        ((db.chatMembers.filter (fun m => m.chatId == chat.id)).length)).1.canJoin = true ∧
      (joinSuccess db now chat userId (resolveUserRole db ev eventId userId)
        ((db.chatMembers.filter (fun m => m.chatId == chat.id)).length)).1.reason = none) := by
  have hgc : getOrCreateChat db eventId = (chat, db) := by
    unfold getOrCreateChat
    rw [hchat]
  constructor
  · intro hrole hticket
    unfold getOrJoinChat
    simp only [hev, hgc]
    rw [if_neg (by simp [hactive, hnotexp])]
    rw [if_pos (by simp [hmo, hrole, hticket])]
    simp only [hrole]
  · intro hrole
    have hner : resolveUserRole db ev eventId userId ≠ "MEMBER" := by
      rcases hrole with h2 | h2 <;> rw [h2] <;> decide
    refine ⟨?_, rfl, rfl⟩
    unfold getOrJoinChat
    simp only [hev, hgc]
    rw [if_neg (by simp [hactive, hnotexp])]
    rw [if_neg ?_]
    intro hcond
    simp only [Bool.and_eq_true, beq_iff_eq] at hcond
    exact hner hcond.1.2

/-- Witness for `getOrJoinChat_members_only`: in `dbC2` the ticketless
`alice` is turned away with `NO_TICKET` while the organizer `olga` joins. -/
theorem getOrJoinChat_members_only_witness :
    getOrJoinChat dbC2 0 "e2" "alice" =
      some ({ chat := some (formatChatInfo chatC2 0 "MEMBER" false)
              canJoin := false, reason := some "NO_TICKET" }, dbC2) ∧
    getOrJoinChat dbC2 0 "e2" "olga" =
      some (joinSuccess dbC2 0 chatC2 "olga" "ORGANIZER" 0) ∧
    (joinSuccess dbC2 0 chatC2 "olga" "ORGANIZER" 0).1.canJoin = true := by
  have T1 := getOrJoinChat_members_only dbC2 0 "e2" "alice" evC2 chatC2
    (by decide) (by decide) (by decide) (by decide) (by decide)
  have T2 := getOrJoinChat_members_only dbC2 0 "e2" "olga" evC2 chatC2
    (by decide) (by decide) (by decide) (by decide) (by decide)
  exact ⟨T1.1 rfl rfl, (T2.2 (Or.inl rfl)).1, (T2.2 (Or.inl rfl)).2.1⟩

/-! ### C8: reply-reference integrity -/

def isOkResult : Except ChatError SentMessage → Bool
  | .ok _ => true
  | .error _ => false

def chatC8a : EventChat :=
  { id := 1, eventId := "e8a", isActive := true, slowMode := 0, membersOnly := true }

def chatC8b : EventChat :=
  { id := 2, eventId := "e8b", isActive := true, slowMode := 0, membersOnly := true }

def memC8 : ChatMember :=
  { id := 3, chatId := 1, userId := "alice", role := "MEMBER"
    isMuted := false, mutedUntil := none, joinedAt := 0, lastSeenAt := 0 }

/-- A message living in chat 2, used as a cross-chat reply target. -/
def msgC8 : ChatMessage :=
  { id := 10, chatId := 2, senderId := "bob", content := "other", type := "TEXT"
    replyToId := none, isPinned := false, isDeleted := false, deletedBy := none
    createdAt := 100 }

def dbC8 : DB :=
  { events := [{ id := "e8a", organizerId := "olga", endDate := 1000000 },
               { id := "e8b", organizerId := "olga", endDate := 1000000 }]
    chats := [chatC8a, chatC8b], teamMembers := [], attendees := []
    chatMembers := [memC8], chatMessages := [msgC8], nextId := 20 }

/-- The message object returned by the cross-chat send below. -/
def sC8 : SentMessage :=
  { id := 20, content := "hi", type := "TEXT", senderId := "alice"
    senderRole := "member", replyTo := some (10, "other"), isPinned := false
    createdAt := 1000 }

set_option maxRecDepth 40000 in
/-- C8 counterexample: `alice`, a member of chat 1, sends a message into
chat 1 whose `replyToId` names message 10 of chat 2; `sendMessage` accepts
it and persists a message of chat 1 whose reply reference crosses into
chat 2, so the same-chat invariant on `replyTo` fails on the code. -/
theorem sendMessage_cross_chat_reply_cex :
    (sendMessage dbC8 1000 "e8a" "alice" "hi" "TEXT" (some 10)).1 = Except.ok sC8 ∧
    findMessage (sendMessage dbC8 1000 "e8a" "alice" "hi" "TEXT" (some 10)).2 20 =
      some { id := 20, chatId := 1, senderId := "alice", content := "hi", type := "TEXT"
             replyToId := some 10, isPinned := false, isDeleted := false
             deletedBy := none, createdAt := 1000 } ∧
    findMessage dbC8 10 = some msgC8 ∧
    msgC8.chatId = 2 ∧ (2 : Nat) ≠ 1 := by
  exact ⟨rfl, rfl, rfl, rfl, by decide⟩

/-- Helper: an accepted mute check leaves the message table untouched. -/
theorem sendMessageMuteStep_ok_chatMessages (db : DB) (now : Nat) (member : ChatMember)
    (db1 : DB) (h : sendMessageMuteStep db now member = .ok db1) :
    db1.chatMessages = db.chatMessages := by
  unfold sendMessageMuteStep at h
  by_cases hb : member.isMuted = true
  · rw [if_pos hb] at h
    rcases hmt : member.mutedUntil with _ | t
    · simp only [hmt] at h
      exact Except.noConfusion h
    · simp only [hmt] at h
      by_cases hlt : now < t
      · rw [if_pos hlt] at h
        exact Except.noConfusion h
      · rw [if_neg hlt] at h
        have := Except.ok.inj h
        rw [← this]
        rfl
  · rw [if_neg hb] at h
    have := Except.ok.inj h
    rw [← this]

/-- Helper: a successful send with a reply reference implies the referenced
message row existed, and the reply preview is built from it. -/
theorem sendMessage_ok_reply_inversion (db : DB) (now : Nat)
    (eventId userId content type : String) (rid : Nat) (s : SentMessage) (dbx : DB)
    (hS : sendMessage db now eventId userId content type (some rid) = (Except.ok s, dbx)) :
    ∃ rm, findMessage db rid = some rm ∧ s.replyTo = some (rm.id, rm.content.take 100) := by
  unfold sendMessage at hS
  by_cases hlen : MAX_MESSAGE_LENGTH < content.length
  · rw [if_pos hlen] at hS
    exact Except.noConfusion (congrArg Prod.fst hS)
  · rw [if_neg hlen] at hS
    rcases hc : findChatByEvent db eventId with _ | chat
    · rw [hc] at hS
      exact Except.noConfusion (congrArg Prod.fst hS)
    · simp only [hc] at hS
      by_cases hact : chat.isActive = false
      · rw [if_pos hact] at hS
        exact Except.noConfusion (congrArg Prod.fst hS)
      · rw [if_neg hact] at hS
        rcases hm : findMember db chat.id userId with _ | member
        · simp only [hm] at hS
          exact Except.noConfusion (congrArg Prod.fst hS)
        · simp only [hm] at hS
          rcases hmu : sendMessageMuteStep db now member with e | db1
          · simp only [hmu] at hS
            exact Except.noConfusion (congrArg Prod.fst hS)
          · simp only [hmu] at hS
            have hdbm : db1.chatMessages = db.chatMessages :=
              sendMessageMuteStep_ok_chatMessages db now member db1 hmu
            unfold sendMessageRest at hS
            by_cases ha : type = "ANNOUNCEMENT" ∧ (permissionsFor member.role).canAnnounce = false
            · rw [if_pos ha] at hS
              exact Except.noConfusion (congrArg Prod.fst hS)
            · rw [if_neg ha] at hS
              rcases hss : sendMessageSlowStep db1 now userId chat member with e | u
              · simp only [hss] at hS
                exact Except.noConfusion (congrArg Prod.fst hS)
              · simp only [hss] at hS
                rcases hr : findMessage db1 rid with _ | rm
                · simp only [hr] at hS
                  exact Except.noConfusion (congrArg Prod.fst hS)
                · simp only [hr] at hS
                  refine ⟨rm, ?_, ?_⟩
                  · rw [← hr]
                    unfold findMessage
                    rw [hdbm]
                  · have hs1 := Except.ok.inj (congrArg Prod.fst hS)
                    rw [← hs1]

/-- Helper: with no message row matching `replyToId`, a send can never be
accepted (the store's foreign key rejects the insert). -/
theorem sendMessage_missing_reply_fails (db : DB) (now : Nat)
    (eventId userId content type : String) (rid : Nat)
    (hmiss : findMessage db rid = none) :
    isOkResult (sendMessage db now eventId userId content type (some rid)).1 = false := by
  rcases hP : sendMessage db now eventId userId content type (some rid) with ⟨res, dbx⟩
  rcases res with e | s
  · rfl
  · rcases sendMessage_ok_reply_inversion db now eventId userId content type rid s dbx hP
      with ⟨rm, hrm, _⟩
    rw [hmiss] at hrm
    cases hrm

/-- C8 (amended): a persisted reply reference always names an existing
message row — the store's foreign key fails the insert otherwise — but not
necessarily one of the same chat: `sendMessage` runs no same-chat check, so
a message may reply to a message of a different chat (see the
counterexample for a concrete cross-chat reply). -/
theorem sendMessage_replyTo_integrity (db : DB) (now : Nat)
    (eventId userId content type : String) (rid : Nat) (s : SentMessage) (dbx : DB) :
    (findMessage db rid = none →
      isOkResult (sendMessage db now eventId userId content type (some rid)).1 = false) ∧
    (sendMessage db now eventId userId content type (some rid) = (Except.ok s, dbx) →
      (findMessage db rid).isSome = true ∧
      s.replyTo = (findMessage db rid).map (fun rm => (rm.id, rm.content.take 100))) :=
  ⟨fun hmiss => sendMessage_missing_reply_fails db now eventId userId content type rid hmiss,
   fun hS => by
     rcases sendMessage_ok_reply_inversion db now eventId userId content type rid s dbx hS
       with ⟨rm, hrm, hsr⟩
     rw [hrm]
     exact ⟨rfl, by simpa using hsr⟩⟩

/-- The store after the cross-chat send of the counterexample. -/
def dbxC8 : DB := dbAfterInsert dbC8 1000 1 "alice" "hi" "TEXT" (some 10) 3

set_option maxRecDepth 40000 in
/-- Witness for `sendMessage_replyTo_integrity`: replying to the absent
message 99 fails, while the accepted reply to message 10 resolves its
preview from the existing (cross-chat) row. -/
theorem sendMessage_replyTo_integrity_witness :
    isOkResult (sendMessage dbC8 1000 "e8a" "alice" "hi" "TEXT" (some 99)).1 = false ∧
    (findMessage dbC8 10).isSome = true ∧
    sC8.replyTo = (findMessage dbC8 10).map (fun rm => (rm.id, rm.content.take 100)) := by
  have T1 := (sendMessage_replyTo_integrity dbC8 1000 "e8a" "alice" "hi" "TEXT" 99
    sC8 dbxC8).1 rfl
  have T2 := (sendMessage_replyTo_integrity dbC8 1000 "e8a" "alice" "hi" "TEXT" 10
    sC8 dbxC8).2 rfl
  exact ⟨T1, T2.1, T2.2⟩

/-! ### C4: idempotence of the join -/

theorem findChatByEvent_congr (x y : DB) (eventId : String) (h : x.chats = y.chats) :
    findChatByEvent x eventId = findChatByEvent y eventId := by
  unfold findChatByEvent
  rw [h]

/-- The get-or-create step leaves every other table alone and afterwards
finds the chat it returned. -/
theorem getOrCreateChat_spec (db : DB) (eventId : String) (c : EventChat) (d1 : DB)
    (h : getOrCreateChat db eventId = (c, d1)) :
    d1.chatMembers = db.chatMembers ∧ d1.events = db.events ∧
    findChatByEvent d1 eventId = some c := by
  unfold getOrCreateChat at h
  rcases hc0 : findChatByEvent db eventId with _ | c0
  · rw [hc0] at h
    injection h with h1 h2
    subst h1
    subst h2
    refine ⟨rfl, rfl, ?_⟩
    exact List.find?_cons_of_pos _ (by simp)
  · rw [hc0] at h
    injection h with h1 h2
    subst h1
    subst h2
    exact ⟨rfl, rfl, hc0⟩

/-- The membership upsert touches only the member table. -/
theorem upsertMember_fields (d1 : DB) (now : Nat) (cid : Nat) (uid role : String) :
    (upsertMember d1 now cid uid role).2.chats = d1.chats ∧
    (upsertMember d1 now cid uid role).2.events = d1.events := by
  unfold upsertMember
  rcases h : findMember d1 cid uid with _ | m <;> simp [h, updateMemberRow]

/-- With the unique-index invariant, the row `findUnique` returns is the
only row of its (chat, user) pair. -/
theorem memberRows_of_findMember (d : DB) (cid : Nat) (uid : String) (m : ChatMember)
    (hnd : d.chatMembers.Nodup)
    (huniq : ∀ m₁ ∈ d.chatMembers, ∀ m₂ ∈ d.chatMembers,
      m₁.chatId = m₂.chatId → m₁.userId = m₂.userId → m₁ = m₂)
    (hf : findMember d cid uid = some m) :
    memberRows d cid uid = [m] := by
  unfold memberRows
  unfold findMember at hf
  apply filter_eq_singleton_of_nodup _ _ _ hnd (List.mem_of_find?_eq_some hf)
    (List.find?_some hf)
  intro b hb hpb
  have hpm := List.find?_some hf
  have hmm := List.mem_of_find?_eq_some hf
  simp only [Bool.and_eq_true, beq_iff_eq] at hpb hpm
  exact huniq b hb m hmm (hpb.1.trans hpm.1.symm) (hpb.2.trans hpm.2.symm)

/-- First join of a (chat, user): the upsert inserts exactly one row. -/
theorem upsertMember_rows_create (d1 : DB) (now : Nat) (cid : Nat) (uid role : String)
    (hf : findMember d1 cid uid = none) :
    (upsertMember d1 now cid uid role).2.chatMembers.length = d1.chatMembers.length + 1 ∧
    memberRows (upsertMember d1 now cid uid role).2 cid uid =
      [{ id := d1.nextId, chatId := cid, userId := uid, role := role
         isMuted := false, mutedUntil := none, joinedAt := now, lastSeenAt := now }] := by
  unfold upsertMember
  simp only [hf]
  refine ⟨rfl, ?_⟩
  unfold memberRows
  rw [List.filter_cons_of_pos (by simp)]
  rw [filter_eq_nil_of_find?_none _ _ hf]

/-- Repeated join of a (chat, user): the upsert only bumps `lastSeenAt` of
the unique existing row, creating nothing. -/
theorem upsertMember_rows_update (d1 : DB) (now : Nat) (cid : Nat) (uid role : String)
    (m : ChatMember)
    (hrows : memberRows d1 cid uid = [m]) :
    (upsertMember d1 now cid uid role).2.chatMembers.length = d1.chatMembers.length ∧
    memberRows (upsertMember d1 now cid uid role).2 cid uid =
      [{ m with lastSeenAt := now }] := by
  have hf : findMember d1 cid uid = some m := find?_of_filter_eq_singleton _ _ _ hrows
  unfold upsertMember
  simp only [hf]
  constructor
  · exact List.length_map _ _
  · unfold memberRows updateMemberRow
    rw [filter_map_of_pred_comm _ _ _ (fun a => by
      by_cases hid : (a.id == m.id) = true <;> simp [hid])]
    unfold memberRows at hrows
    rw [hrows]
    simp

/-- Inversion of a join that answered `canJoin = true`: it ran the
get-or-create step and then the membership upsert on the resulting store. -/
theorem getOrJoinChat_success_inversion (db : DB) (now : Nat) (eventId userId : String)
    (r : JoinResult) (db' : DB)
    (h : getOrJoinChat db now eventId userId = some (r, db'))
    (hc : r.canJoin = true) :
    ∃ c d1 role, getOrCreateChat db eventId = (c, d1) ∧
      db' = (upsertMember d1 now c.id userId role).2 := by
  unfold getOrJoinChat at h
  rcases hev : findEvent db eventId with _ | ev
  · rw [hev] at h
    exact Option.noConfusion h
  · simp only [hev] at h
    rcases hgc : getOrCreateChat db eventId with ⟨c, d1⟩
    simp only [hgc] at h
    split at h
    · have hr := congrArg (fun p => p.1.canJoin) (Option.some.inj h)
      simp only [hc] at hr
      exact Bool.noConfusion hr
    · split at h
      · have hr := congrArg (fun p => p.1.canJoin) (Option.some.inj h)
        simp only [hc] at hr
        exact Bool.noConfusion hr
      · have h' := Option.some.inj h
        refine ⟨c, d1, resolveUserRole d1 ev eventId userId, rfl, ?_⟩
        have hd := congrArg Prod.snd h'
        exact hd.symm

/-- C4: under the store's unique-index invariant, a join that succeeds
leaves exactly one membership row for the (chat, user) pair, and an
immediately repeated successful join finds the same chat, keeps that same
single row — same id — and only bumps its `lastSeenAt`, adding no row. -/
theorem getOrJoinChat_idempotent (db : DB) (now now2 : Nat) (eventId userId : String)
    (r1 : JoinResult) (dbA : DB) (r2 : JoinResult) (dbB : DB)
    (chatA : EventChat) (mA : ChatMember)
    (hwf : DBWellFormed db)
    (h1 : getOrJoinChat db now eventId userId = some (r1, dbA))
    (hc1 : r1.canJoin = true)
    (hchatA : findChatByEvent dbA eventId = some chatA)
    (hmA : findMember dbA chatA.id userId = some mA)
    (h2 : getOrJoinChat dbA now2 eventId userId = some (r2, dbB))
    (hc2 : r2.canJoin = true) :
    memberRows dbA chatA.id userId = [mA] ∧
    findChatByEvent dbB eventId = some chatA ∧
    memberRows dbB chatA.id userId = [{ mA with lastSeenAt := now2 }] ∧
    dbB.chatMembers.length = dbA.chatMembers.length := by
  obtain ⟨hnd, huniq⟩ := hwf
  obtain ⟨c1, d1, role1, hgc1, hdbA⟩ :=
    getOrJoinChat_success_inversion db now eventId userId r1 dbA h1 hc1
  obtain ⟨hmem1, hev1, hfc1⟩ := getOrCreateChat_spec db eventId c1 d1 hgc1
  have hchA : findChatByEvent dbA eventId = some c1 := by
    rw [hdbA, findChatByEvent_congr _ d1 _ (upsertMember_fields d1 now c1.id userId role1).1]
    exact hfc1
  have hceq : chatA = c1 := Option.some.inj (hchatA.symm.trans hchA)
  subst hceq
  -- call 1 produced a single row for the pair
  have hnd1 : d1.chatMembers.Nodup := by rw [hmem1]; exact hnd
  have huniq1 : ∀ m₁ ∈ d1.chatMembers, ∀ m₂ ∈ d1.chatMembers,
      m₁.chatId = m₂.chatId → m₁.userId = m₂.userId → m₁ = m₂ := by
    rw [hmem1]; exact huniq
  have hrowsA : ∃ mX, memberRows dbA chatA.id userId = [mX] := by
    rcases hf1 : findMember d1 chatA.id userId with _ | m0
    · obtain ⟨_, hr⟩ := upsertMember_rows_create d1 now chatA.id userId role1 hf1
      exact ⟨_, by rw [hdbA]; exact hr⟩
    · obtain ⟨_, hr⟩ := upsertMember_rows_update d1 now chatA.id userId role1 m0
        (memberRows_of_findMember d1 chatA.id userId m0 hnd1 huniq1 hf1)
      exact ⟨_, by rw [hdbA]; exact hr⟩
  obtain ⟨mX, hrowsA⟩ := hrowsA
  have hmX : mA = mX := by
    have := find?_of_filter_eq_singleton _ _ _ hrowsA
    exact Option.some.inj ((hmA.symm.trans this))
  subst hmX
  -- call 2: the chat is found as-is, so the upsert runs on dbA directly
  obtain ⟨c2, d2, role2, hgc2, hdbB⟩ :=
    getOrJoinChat_success_inversion dbA now2 eventId userId r2 dbB h2 hc2
  have hgc2' : getOrCreateChat dbA eventId = (chatA, dbA) := by
    unfold getOrCreateChat
    rw [hchatA]
  rw [hgc2'] at hgc2
  injection hgc2 with hc2eq hd2eq
  subst hc2eq
  subst hd2eq
  obtain ⟨hlenB, hrowsB⟩ := upsertMember_rows_update dbA now2 chatA.id userId role2 mA hrowsA
  refine ⟨hrowsA, ?_, ?_, ?_⟩
  · rw [hdbB, findChatByEvent_congr _ dbA _ (upsertMember_fields dbA now2 chatA.id userId role2).1]
    exact hchatA
  · rw [hdbB]
    exact hrowsB
  · rw [hdbB]
    exact hlenB

def chatC4 : EventChat :=
  { id := 1, eventId := "e4", isActive := true, slowMode := 0, membersOnly := true }

def dbC4 : DB :=
  { events := [{ id := "e4", organizerId := "olga", endDate := 1000000 }]
    chats := [chatC4], teamMembers := [], attendees := []
    chatMembers := [], chatMessages := [], nextId := 2 }

def mC4 : ChatMember :=
  { id := 2, chatId := 1, userId := "olga", role := "ORGANIZER"
    isMuted := false, mutedUntil := none, joinedAt := 100, lastSeenAt := 100 }

def dbAC4 : DB := { dbC4 with chatMembers := [mC4], nextId := 3 }

def dbBC4 : DB := { dbC4 with chatMembers := [{ mC4 with lastSeenAt := 200 }], nextId := 3 }

def r1C4 : JoinResult :=
  { chat := some { id := 1, eventId := "e4", isActive := true, slowMode := 0
                   membersOnly := true, memberCount := 0, onlineCount := 1
                   userRole := "organizer", isMuted := false }
    canJoin := true, reason := none }

def r2C4 : JoinResult :=
  { chat := some { id := 1, eventId := "e4", isActive := true, slowMode := 0
                   membersOnly := true, memberCount := 1, onlineCount := 1
                   userRole := "organizer", isMuted := false }
    canJoin := true, reason := none }

set_option maxRecDepth 40000 in
/-- Witness for `getOrJoinChat_idempotent`: the organizer joins the fresh
chat of `dbC4` at t=100 and again at t=200; the single membership row keeps
id 2 and only its `lastSeenAt` moves. -/
theorem getOrJoinChat_idempotent_witness :
    memberRows dbAC4 1 "olga" = [mC4] ∧
    findChatByEvent dbBC4 "e4" = some chatC4 ∧
    memberRows dbBC4 1 "olga" = [{ mC4 with lastSeenAt := 200 }] ∧
    dbBC4.chatMembers.length = dbAC4.chatMembers.length :=
  getOrJoinChat_idempotent dbC4 100 200 "e4" "olga" r1C4 dbAC4 r2C4 dbBC4
    chatC4 mC4 (by constructor <;> decide) rfl rfl rfl rfl rfl rfl

end EventFi
